import Mathlib

/-!
Verification of the coverage-guided dead-code elimination tool
(`src/build.js`) against its specification.

The embedding models:
* source locations and AST nodes (function declarations / expressions,
  statements) as Lean structures;
* an Istanbul-style per-file coverage report: `fnMap` entries paired with
  their `f` hit counts, and `statementMap` entries paired with their `s`
  hit counts, kept in the stored scan order of the JavaScript `for..in`
  loops;
* the location matchers `isSameFunction` / `isSameStatement`;
* the three Babel visitor bodies (`FunctionDeclaration`,
  `FunctionExpression`, `Statement`) of the `removeUnusedCode` plugin;
* the top-level build/validation pipeline as explicit data flow.

JavaScript truthiness is modelled with `Option` (a missing field is
`none`); a string is truthy when present and nonempty.  Missing hit
counts are `none`, and the JavaScript comparison `hits === 0` is
`hits == some 0` (so `undefined === 0` is `false`).
-/

/-- A source location: `loc.start.line`, `loc.start.column`,
`loc.end.line`, `loc.end.column`. -/
structure Loc where
  startLine : Nat
  startColumn : Nat
  endLine : Nat
  endColumn : Nat
deriving DecidableEq, Repr

/-- An AST function node (declaration or expression): its location
(`node.loc`, absent on synthesized nodes), its identifier name
(`node.id`, absent on anonymous functions), its parameter list and its
body (a block of statements, each carrying its own location; a
statement's remaining content is an opaque `payload`). -/
structure StmtNode where
  loc : Option Loc
  payload : Nat
deriving DecidableEq, Repr

structure FnNode where
  loc : Option Loc
  id : Option String
  params : List String
  body : List StmtNode
deriving DecidableEq, Repr

/-- An Istanbul `fnMap` descriptor: `{ name, loc }` as consumed by
`isSameFunction` (Istanbul always records a `loc`; the `name` string may
be absent or empty, i.e. falsy). -/
structure FnDesc where
  name : Option String
  loc : Loc
deriving DecidableEq, Repr

/-- JavaScript truthiness of an optional string: present and nonempty. -/
def nameTruthy : Option String → Bool
  | none => false
  | some s => !(s == "")

/-- `isSameFunction(nodeA, nodeB)` from `src/build.js` lines 69–76:
`nodeA && nodeA.loc && nodeB && nodeB.name &&
 nodeA.loc.start.line === nodeB.loc.start.line &&
 ((nodeA.id && nodeA.id.name === nodeB.name) ||
  (nodeA.loc.end.line === nodeB.loc.end.line))`.
`nodeA`/`nodeB` are always present at the call sites; the remaining
truthiness checks are on `nodeA.loc` and `nodeB.name`. -/
def isSameFunction (nodeA : FnNode) (nodeB : FnDesc) : Bool :=
  match nodeA.loc, nodeB.name with
  | some la, some nm =>
    !(nm == "") &&
    la.startLine == nodeB.loc.startLine &&
    ((match nodeA.id with
      | some idName => idName == nm
      | none => false) ||
     la.endLine == nodeB.loc.endLine)
  | _, _ => false

/-- `isSameStatement(locA, locB)` from `src/build.js` lines 78–84:
`locA && locB &&
 locA.start.line === locB.start.line &&
 locA.end.line === locB.end.line &&
 locA.start.column === locB.start.column`. -/
def isSameStatement (locA locB : Option Loc) : Bool :=
  match locA, locB with
  | some a, some b =>
    a.startLine == b.startLine &&
    a.endLine == b.endLine &&
    a.startColumn == b.startColumn
  | _, _ => false

/-- A per-file coverage report, `coverageForFiles[filename]`: the
`fnMap` entries paired with their `f` hit counts and the `statementMap`
entries (each a plain location object) paired with their `s` hit
counts, in the stored iteration order of the `for..in` loops.  A hit
count is `none` when the parallel table has no entry for that id
(JavaScript `undefined`). -/
structure Coverage where
  fns : List (FnDesc × Option Nat)
  stmts : List (Loc × Option Nat)
deriving DecidableEq, Repr

/-- The stub built at `src/build.js` line 111:
`t.functionDeclaration(path.node.id, [], t.blockStatement([]))` — a
fresh node (no `loc`) keeping the visited node's identifier, with empty
parameter list and empty body. -/
def fnStubDecl (node : FnNode) : FnNode :=
  { loc := none, id := node.id, params := [], body := [] }

/-- The stub built at `src/build.js` line 131:
`t.functionExpression(null, [], t.blockStatement([]))` — anonymous,
empty parameter list, empty body, no `loc`. -/
def fnStubExpr : FnNode :=
  { loc := none, id := none, params := [], body := [] }

/-- The `for (const fnNum in coverage.fnMap)` loop of the
`FunctionDeclaration` visitor (`src/build.js` lines 101–114): skip an
entry that does not match (`continue`), skip a matching entry whose hit
count is not `=== 0` (`continue`), and on the first matching dead entry
replace the node with the named stub and `return`. -/
def fnDeclScan (node : FnNode) : List (FnDesc × Option Nat) → FnNode
  | [] => node
  | (fn, hits) :: rest =>
    if !(isSameFunction node fn) then fnDeclScan node rest
    else if !(hits == some (0 : Nat)) then fnDeclScan node rest
    else fnStubDecl node

/-- The `FunctionDeclaration` visitor (`src/build.js` lines 98–115):
`const coverage = coverageForFiles[this.filename]; if (!coverage)
return;` then the `fnMap` scan loop. -/
def visitFunctionDeclaration (cov : Option Coverage) (node : FnNode) : FnNode :=
  match cov with
  | none => node
  | some c => fnDeclScan node c.fns

/-- The normalization at `src/build.js` lines 117–119:
`if (path.node.id && path.parent.type === 'AssignmentExpression')
path.node.id = null;`. -/
def normalizeSelfRef (parentIsAssign : Bool) (node : FnNode) : FnNode :=
  if node.id.isSome && parentIsAssign then { node with id := none } else node

/-- The `for (const fnNum in coverage.fnMap)` loop of the
`FunctionExpression` visitor (`src/build.js` lines 122–134): identical
scan, but the first matching dead entry replaces the node with the
anonymous stub. -/
def fnExprScan (node : FnNode) : List (FnDesc × Option Nat) → FnNode
  | [] => node
  | (fn, hits) :: rest =>
    if !(isSameFunction node fn) then fnExprScan node rest
    else if !(hits == some (0 : Nat)) then fnExprScan node rest
    else fnStubExpr

/-- The `FunctionExpression` visitor (`src/build.js` lines 116–135):
first the unconditional self-reference normalization, then the coverage
check (`if (!coverage) return;`), then the `fnMap` scan on the
(possibly already mutated) node. -/
def visitFunctionExpression (cov : Option Coverage) (parentIsAssign : Bool)
    (node : FnNode) : FnNode :=
  let node := normalizeSelfRef parentIsAssign node
  match cov with
  | none => node
  | some c => fnExprScan node c.fns

/-- The `for (const sNum in coverage.statementMap)` loop of the
`Statement` visitor (`src/build.js` lines 139–147).  Inside a visit
`path.node` is present and `sNum` is a defined key, so the
`typeof sNum === 'undefined'` guard and the `path.node &&` guards are
no-ops; the loop skips non-matching entries, skips matching live
entries, and removes the node (`path.remove()`) on the first matching
entry whose hit count is `=== 0`.  `none` is a removed node, `some` a
kept one. -/
def stmtScan (node : StmtNode) : List (Loc × Option Nat) → Option StmtNode
  | [] => some node
  | (s, hits) :: rest =>
    if !(isSameStatement node.loc (some s)) then stmtScan node rest
    else if !(hits == some (0 : Nat)) then stmtScan node rest
    else none

/-- The `Statement` visitor (`src/build.js` lines 136–148). -/
def visitStatement (cov : Option Coverage) (node : StmtNode) : Option StmtNode :=
  match cov with
  | none => some node
  | some c => stmtScan node c.stmts

/-- Applying the `Statement` visitor across a block: removed statements
disappear, kept statements survive in order. -/
def processBlock (cov : Option Coverage) (stmts : List StmtNode) : List StmtNode :=
  stmts.filterMap (visitStatement cov)

/-- A function node matches some dead entry of the table: the condition
under which the scan loops reach their replace-and-return arm. -/
def fnIsDead (c : Coverage) (node : FnNode) : Bool :=
  c.fns.any fun e => isSameFunction node e.1 && e.2 == some (0 : Nat)

/-- A statement node matches some dead entry of the table. -/
def stmtIsDead (c : Coverage) (node : StmtNode) : Bool :=
  c.stmts.any fun e => isSameStatement node.loc (some e.1) && e.2 == some (0 : Nat)

/-- Written from the spec's words for comparison with `isSameFunction`
(claim C2): the node's start line equals the descriptor's declared start
line, and either the node carries an identifier whose name equals the
descriptor's name or the node's end line equals the descriptor's
declared end line. -/
def specFunctionMatch (nodeA : FnNode) (nodeB : FnDesc) : Bool :=
  match nodeA.loc with
  | none => false
  | some la =>
    la.startLine == nodeB.loc.startLine &&
    ((match nodeA.id, nodeB.name with
      | some nm, some dn => nm == dn
      | _, _ => false) ||
     la.endLine == nodeB.loc.endLine)

/-- Written from the spec's words for comparison with the scan loops
(claim C1): the first descriptor, in stored scan order, that satisfies
the location matcher for the node, together with its hit count. -/
def specFirstMatch (node : FnNode) : List (FnDesc × Option Nat) → Option (FnDesc × Option Nat)
  | [] => none
  | (d, h) :: rest => if isSameFunction node d then some (d, h) else specFirstMatch node rest

/-- Observable outcome of one run of `src/build.js`: which artifact
files were written, whether the process crashed on an uncaught
exception, whether the validation `catch` logged an error, and whether
the output-mismatch warning was printed. -/
structure BuildOutcome where
  originalWritten : Bool
  instrumentedWritten : Bool
  trimmedWritten : Bool
  uglifiedWritten : Bool
  crashed : Bool
  errorLogged : Bool
  mismatchWarned : Bool
deriving DecidableEq, Repr

/-- The top-level flow of `src/build.js`, with the two executions of the
program under test abstracted as `Except` values (`Except.error` models
a thrown exception).  In order: `original.js` and `instrumented.js` are
written (lines 19, 28); the instrumented program's `precompile` is run
at line 67 **outside** any try/catch, so an exception there is uncaught
and ends the process before `trimmed.js` exists; `trimmed.js` is
written (line 163); the `try` block (lines 169–207) runs the trimmed
program's `precompile` and compares its output with the saved original
output, and the `catch` (lines 202–207) logs the error; finally
`uglified.js` is written (lines 213–219). -/
def runBuild (origRun prunedRun : Except String String) : BuildOutcome :=
  match origRun with
  | Except.error _ =>
    { originalWritten := true, instrumentedWritten := true, trimmedWritten := false,
      uglifiedWritten := false, crashed := true, errorLogged := false,
      mismatchWarned := false }
  | Except.ok beforeOut =>
    match prunedRun with
    | Except.error _ =>
      { originalWritten := true, instrumentedWritten := true, trimmedWritten := true,
        uglifiedWritten := true, crashed := false, errorLogged := true,
        mismatchWarned := false }
    | Except.ok afterOut =>
      { originalWritten := true, instrumentedWritten := true, trimmedWritten := true,
        uglifiedWritten := true, crashed := false, errorLogged := false,
        mismatchWarned := !(afterOut == beforeOut) }

/-- A location spanning lines 3–5, used in the C1 counterexample. -/
def c1loc : Loc := { startLine := 3, startColumn := 0, endLine := 5, endColumn := 1 }

/-- An anonymous function node on lines 3–5. -/
def c1node : FnNode := { loc := some c1loc, id := none, params := [], body := [] }

/-- Two descriptors that both satisfy `isSameFunction` for `c1node`
(same start and end lines, truthy names). -/
def c1d1 : FnDesc := { name := some "a", loc := c1loc }

def c1d2 : FnDesc := { name := some "b", loc := c1loc }

/-- Coverage whose first matching entry is live and whose second
matching entry is dead. -/
def c1cov : Coverage := { fns := [(c1d1, some 1), (c1d2, some 0)], stmts := [] }

/-- An anonymous function node on lines 1–2, for the C2 counterexample. -/
def c2node : FnNode :=
  { loc := some { startLine := 1, startColumn := 0, endLine := 2, endColumn := 1 },
    id := none, params := [], body := [] }

/-- A descriptor with no name whose declared lines agree exactly with
`c2node`. -/
def c2desc : FnDesc :=
  { name := none, loc := { startLine := 1, startColumn := 0, endLine := 2, endColumn := 1 } }

/-- A named function expression on line 1, for the C4 counterexample. -/
def c4node : FnNode :=
  { loc := some { startLine := 1, startColumn := 0, endLine := 1, endColumn := 10 },
    id := some "f", params := [], body := [] }

/-- Coverage used in the C5 witness: one dead entry for a declaration
named `helper` on lines 3–5 (the spec's §8 scenario). -/
def c5loc : Loc := { startLine := 3, startColumn := 0, endLine := 5, endColumn := 1 }

def c5node : FnNode := { loc := some c5loc, id := some "helper", params := [], body := [] }

def c5cov : Coverage :=
  { fns := [({ name := some "helper", loc := c5loc }, some 0)], stmts := [] }

/-- A named function expression with no location, for the C9
counterexample. -/
def c9node : FnNode := { loc := none, id := some "g", params := [], body := [] }

/-- Coverage with one dead entry, for the C9 counterexample. -/
def c9cov : Coverage :=
  { fns := [({ name := some "g",
               loc := { startLine := 1, startColumn := 0, endLine := 1, endColumn := 0 } },
             some 0)],
    stmts := [] }

/-- Characterization of the declaration scan loop: it stubs the node
exactly when some entry both matches and is dead. -/
theorem fnDeclScan_eq (node : FnNode) (l : List (FnDesc × Option Nat)) :
    fnDeclScan node l =
      (if l.any (fun e => isSameFunction node e.1 && e.2 == some (0 : Nat))
       then fnStubDecl node else node) := by
  induction l with
  | nil => simp [fnDeclScan]
  | cons e rest ih =>
    obtain ⟨fn, hits⟩ := e
    cases hm : isSameFunction node fn with
    | false =>
      simp only [fnDeclScan, List.any_cons, hm, Bool.false_and, Bool.false_or]
      simp [ih]
    | true =>
      cases hb : (hits == some (0 : Nat)) with
      | false =>
        simp only [fnDeclScan, List.any_cons, hm, hb, Bool.true_and, Bool.false_or]
        simp [ih]
      | true =>
        simp only [fnDeclScan, List.any_cons, hm, hb, Bool.true_and, Bool.true_or]
        simp

/-- Characterization of the expression scan loop. -/
theorem fnExprScan_eq (node : FnNode) (l : List (FnDesc × Option Nat)) :
    fnExprScan node l =
      (if l.any (fun e => isSameFunction node e.1 && e.2 == some (0 : Nat))
       then fnStubExpr else node) := by
  induction l with
  | nil => simp [fnExprScan]
  | cons e rest ih =>
    obtain ⟨fn, hits⟩ := e
    cases hm : isSameFunction node fn with
    | false =>
      simp only [fnExprScan, List.any_cons, hm, Bool.false_and, Bool.false_or]
      simp [ih]
    | true =>
      cases hb : (hits == some (0 : Nat)) with
      | false =>
        simp only [fnExprScan, List.any_cons, hm, hb, Bool.true_and, Bool.false_or]
        simp [ih]
      | true =>
        simp only [fnExprScan, List.any_cons, hm, hb, Bool.true_and, Bool.true_or]
        simp

/-- Characterization of the statement scan loop: it removes the node
exactly when some entry both matches and is dead. -/
theorem stmtScan_eq (node : StmtNode) (l : List (Loc × Option Nat)) :
    stmtScan node l =
      (if l.any (fun e => isSameStatement node.loc (some e.1) && e.2 == some (0 : Nat))
       then none else some node) := by
  induction l with
  | nil => simp [stmtScan]
  | cons e rest ih =>
    obtain ⟨s, hits⟩ := e
    cases hm : isSameStatement node.loc (some s) with
    | false =>
      simp only [stmtScan, List.any_cons, hm, Bool.false_and, Bool.false_or]
      simp [ih]
    | true =>
      cases hb : (hits == some (0 : Nat)) with
      | false =>
        simp only [stmtScan, List.any_cons, hm, hb, Bool.true_and, Bool.false_or]
        simp [ih]
      | true =>
        simp only [stmtScan, List.any_cons, hm, hb, Bool.true_and, Bool.true_or]
        simp

/-- Helper: the `Statement` visitor with a coverage report keeps the
node unless some entry matches it with a zero hit count. -/
theorem visitStatement_eq (c : Coverage) (s : StmtNode) :
    visitStatement (some c) s = if stmtIsDead c s then none else some s := by
  simp only [visitStatement, stmtScan_eq, stmtIsDead]

/-- Helper: filtering out the elements satisfying `p` leaves
`length - countP p` elements. -/
theorem length_filter_not {α : Type} (p : α → Bool) (l : List α) :
    (l.filter fun a => !(p a)).length = l.length - l.countP p := by
  induction l with
  | nil => rfl
  | cons a l ih =>
    have hle : l.countP p ≤ l.length := List.countP_le_length p
    cases hp : p a with
    | true =>
      simp [List.filter_cons, List.countP_cons, hp, ih]
    | false =>
      simp [List.filter_cons, List.countP_cons, hp, ih]
      omega

/-- Claim C2, counterexample: `c2desc` has no name, and `c2node` has no
identifier but agrees with `c2desc` on both start and end line, so the
claim's condition (start lines equal, and end lines equal) holds; yet
`isSameFunction` returns `false`, because the code additionally requires
a truthy descriptor name. -/
theorem c2_counterexample :
    specFunctionMatch c2node c2desc = true ∧ isSameFunction c2node c2desc = false :=
  ⟨rfl, rfl⟩

/-- Claim C2, amended: the function location matcher returns true iff
the descriptor carries a truthy (present, nonempty) name, the node has a
location, the node's start line equals the descriptor's declared start
line, and either the node carries an identifier whose name equals the
descriptor's name or the node's end line equals the descriptor's
declared end line. -/
theorem c2_amended_matcher (n : FnNode) (d : FnDesc) :
    isSameFunction n d = (nameTruthy d.name && specFunctionMatch n d) := by
  cases hl : n.loc with
  | none => cases hn : d.name <;> simp [isSameFunction, specFunctionMatch, nameTruthy, hl]
  | some la =>
    cases hn : d.name with
    | none => simp [isSameFunction, specFunctionMatch, nameTruthy, hl, hn]
    | some nm =>
      cases hi : n.id <;>
        simp [isSameFunction, specFunctionMatch, nameTruthy, hl, hn, hi, Bool.and_assoc]

/-- Claim C3: the statement location matcher returns true iff both
locations are present and their start line, end line and start column
are each exactly equal. -/
theorem c3_statement_matcher (la lb : Option Loc) :
    isSameStatement la lb = true ↔
      ∃ a b, la = some a ∧ lb = some b ∧
        a.startLine = b.startLine ∧ a.endLine = b.endLine ∧
        a.startColumn = b.startColumn := by
  cases la <;> cases lb <;> simp [isSameStatement, and_assoc]

/-- Claim C1, counterexample: for `c1node`, the first descriptor in
stored scan order satisfying the location matcher is `c1d1`, whose hit
count is 1 (nonzero), so the claim says the node is classified Live and
kept unchanged with no later descriptor consulted; but the
`FunctionDeclaration` visitor stubs the node, because the loop merely
`continue`s past matching live entries and a later matching entry
(`c1d2`) is dead. -/
theorem c1_counterexample :
    specFirstMatch c1node c1cov.fns = some (c1d1, some 1) ∧
    isSameFunction c1node c1d1 = true ∧
    visitFunctionDeclaration (some c1cov) c1node ≠ c1node := by
  refine ⟨rfl, rfl, ?_⟩
  decide

/-- Claim C1, amended: for a function node whose file has a coverage
report, the node is rewritten to a stub iff some descriptor in the
stored table both satisfies the location matcher and has hit count
exactly 0; matching descriptors with nonzero hit counts do not stop the
scan.  For function expressions the matcher is applied to the node
after the self-reference normalization. -/
theorem c1_amended_scan (c : Coverage) (p : Bool) (n : FnNode) :
    visitFunctionDeclaration (some c) n =
      (if fnIsDead c n then fnStubDecl n else n) ∧
    visitFunctionExpression (some c) p n =
      (if fnIsDead c (normalizeSelfRef p n) then fnStubExpr
       else normalizeSelfRef p n) := by
  constructor
  · simp only [visitFunctionDeclaration, fnDeclScan_eq, fnIsDead]
  · simp only [visitFunctionExpression, fnExprScan_eq, fnIsDead]

/-- Claim C4, counterexample: `c4node` is a function expression with an
internal name sitting on the right-hand side of an assignment, in a
file with no coverage report; the claim says it is left structurally
identical, but the visitor strips its identifier (the normalization at
lines 117–119 runs before the coverage check at lines 120–121). -/
theorem c4_counterexample : visitFunctionExpression none true c4node ≠ c4node := by
  decide

/-- Claim C4, amended: for a node whose file has no coverage report,
the `FunctionDeclaration` and `Statement` visitors leave it exactly as
it was; the `FunctionExpression` visitor neither stubs nor removes it,
but still applies the unconditional self-reference normalization. -/
theorem c4_amended_no_coverage :
    (∀ n : FnNode, visitFunctionDeclaration none n = n) ∧
    (∀ s : StmtNode, visitStatement none s = some s) ∧
    (∀ (p : Bool) (n : FnNode), visitFunctionExpression none p n = normalizeSelfRef p n) :=
  ⟨fun _ => rfl, fun _ => rfl, fun _ _ => rfl⟩

/-- Claim C5: a function declaration carrying identifier `f` that
matches a dead coverage entry is replaced by a declaration with the
same identifier `f`, an empty parameter list and an empty body. -/
theorem c5_dead_decl_stub (c : Coverage) (n : FnNode) (f : String)
    (hid : n.id = some f) (hdead : fnIsDead c n = true) :
    visitFunctionDeclaration (some c) n =
      { loc := none, id := some f, params := [], body := [] } := by
  have h1 : visitFunctionDeclaration (some c) n = fnStubDecl n := by
    simp only [visitFunctionDeclaration, fnDeclScan_eq]
    simp only [fnIsDead] at hdead
    simp [hdead]
  rw [h1]
  simp [fnStubDecl, hid]

/-- Claim C5, witness: the spec's §8 scenario — a declaration named
`helper` on lines 3–5 with hit count 0 becomes `function helper() {}`. -/
theorem c5_witness :
    visitFunctionDeclaration (some c5cov) c5node =
      { loc := none, id := some "helper", params := [], body := [] } :=
  c5_dead_decl_stub c5cov c5node "helper" rfl (by decide)

/-- Claim C6: a dead statement is deleted from its containing block
rather than stubbed: applying the `Statement` visitor across a block
yields exactly the non-dead statements in their original relative
order, so a block of N statements of which M are dead produces a block
of N − M statements. -/
theorem c6_statement_deletion (c : Coverage) (stmts : List StmtNode) :
    processBlock (some c) stmts = stmts.filter (fun s => !(stmtIsDead c s)) ∧
    (processBlock (some c) stmts).length =
      stmts.length - stmts.countP (fun s => stmtIsDead c s) := by
  have h1 : ∀ l : List StmtNode,
      List.filterMap (visitStatement (some c)) l = l.filter fun s => !(stmtIsDead c s) := by
    intro l
    induction l with
    | nil => rfl
    | cons s rest ih =>
      rw [List.filterMap_cons, visitStatement_eq, List.filter_cons]
      cases hd : stmtIsDead c s with
      | true => simp [hd, ih]
      | false => simp [hd, ih]
  refine ⟨h1 stmts, ?_⟩
  have h2 : processBlock (some c) stmts = stmts.filter fun s => !(stmtIsDead c s) :=
    h1 stmts
  rw [h2]
  exact length_filter_not (fun s => stmtIsDead c s) stmts

/-- Claim C7: the self-reference-name normalization is a no-op on a
function expression that has no internal name, whatever the parent
node is. -/
theorem c7_normalization_noop (p : Bool) (n : FnNode) (h : n.id = none) :
    normalizeSelfRef p n = n := by
  simp [normalizeSelfRef, h]

/-- Claim C7, witness: the normalization leaves a concrete anonymous
function expression unchanged even under an assignment parent. -/
theorem c7_witness :
    normalizeSelfRef true { loc := none, id := none, params := [], body := [] } =
      { loc := none, id := none, params := [], body := [] } :=
  c7_normalization_noop true { loc := none, id := none, params := [], body := [] } rfl

/-- Claim C8, counterexample: if the original program throws when its
`precompile` is executed (line 67, outside any try/catch), the run
crashes: the exception is not caught or logged, and neither the pruned
artifact (`trimmed.js`) nor the uglified output is written. -/
theorem c8_counterexample :
    (runBuild (Except.error "boom") (Except.ok "A")).crashed = true ∧
    (runBuild (Except.error "boom") (Except.ok "A")).errorLogged = false ∧
    (runBuild (Except.error "boom") (Except.ok "A")).trimmedWritten = false ∧
    (runBuild (Except.error "boom") (Except.ok "A")).uglifiedWritten = false :=
  ⟨rfl, rfl, rfl, rfl⟩

/-- Claim C8, amended: if the pruned program throws during validation,
the exception is caught and logged, the run does not terminate, and the
already-computed artifacts — the pruned artifact and the uglified
output — are still written; an exception from the original program's
execution happens before the try/catch and aborts the run. -/
theorem c8_amended_pruned_failure (e beforeOut : String) :
    (runBuild (Except.ok beforeOut) (Except.error e)).crashed = false ∧
    (runBuild (Except.ok beforeOut) (Except.error e)).errorLogged = true ∧
    (runBuild (Except.ok beforeOut) (Except.error e)).trimmedWritten = true ∧
    (runBuild (Except.ok beforeOut) (Except.error e)).uglifiedWritten = true :=
  ⟨rfl, rfl, rfl, rfl⟩

/-- Claim C9, counterexample: `c9node` has no location metadata, so
every matcher invocation returns false and it can never be stubbed or
removed; but it is not "left untouched": the `FunctionExpression`
visitor still strips its internal name under an assignment parent. -/
theorem c9_counterexample :
    visitFunctionExpression (some c9cov) true c9node ≠ c9node := by
  decide

/-- Claim C9, amended: for a visited node whose location field is
absent, both matchers return false against every descriptor, so the
node is treated as having no coverage data: the `FunctionDeclaration`
and `Statement` visitors leave it unchanged, and the
`FunctionExpression` visitor never stubs it, applying only the
unconditional self-reference normalization. -/
theorem c9_amended_missing_loc (c : Coverage) (p : Bool) (n : FnNode) (s : StmtNode)
    (hn : n.loc = none) (hs : s.loc = none) :
    (∀ d, isSameFunction n d = false) ∧
    (∀ lb, isSameStatement s.loc lb = false) ∧
    visitFunctionDeclaration (some c) n = n ∧
    visitStatement (some c) s = some s ∧
    visitFunctionExpression (some c) p n = normalizeSelfRef p n := by
  have hf : ∀ d, isSameFunction n d = false := by
    intro d
    cases hdn : d.name <;> simp [isSameFunction, hn, hdn]
  have hfs : ∀ lb, isSameStatement s.loc lb = false := by
    intro lb
    cases lb <;> simp [isSameStatement, hs]
  have hnorm : (normalizeSelfRef p n).loc = none := by
    simp only [normalizeSelfRef]
    split <;> simp [hn]
  have hf2 : ∀ d, isSameFunction (normalizeSelfRef p n) d = false := by
    intro d
    cases hdn : d.name <;> simp [isSameFunction, hnorm, hdn]
  have hany : (c.fns.any fun e => isSameFunction n e.1 && e.2 == some (0 : Nat)) = false := by
    simp only [List.any_eq_false]
    intro e _
    simp [hf e.1]
  have hany2 :
      (c.fns.any fun e =>
        isSameFunction (normalizeSelfRef p n) e.1 && e.2 == some (0 : Nat)) = false := by
    simp only [List.any_eq_false]
    intro e _
    simp [hf2 e.1]
  have hsany :
      (c.stmts.any fun e =>
        isSameStatement s.loc (some e.1) && e.2 == some (0 : Nat)) = false := by
    simp only [List.any_eq_false]
    intro e _
    simp [hfs (some e.1)]
  refine ⟨hf, hfs, ?_, ?_, ?_⟩
  · simp only [visitFunctionDeclaration, fnDeclScan_eq, hany]
    simp
  · simp only [visitStatement, stmtScan_eq, hsany]
    simp
  · simp only [visitFunctionExpression, fnExprScan_eq, hany2]
    simp

/-- Claim C9, witness: a concrete location-free function node is not
matched by a concrete descriptor and survives the `FunctionDeclaration`
visitor unchanged under a concrete coverage report. -/
theorem c9_witness :
    isSameFunction { loc := none, id := none, params := [], body := [] }
        { name := some "a",
          loc := { startLine := 1, startColumn := 0, endLine := 1, endColumn := 0 } } = false ∧
    visitFunctionDeclaration (some { fns := [], stmts := [] })
        { loc := none, id := none, params := [], body := [] } =
      { loc := none, id := none, params := [], body := [] } :=
  ⟨(c9_amended_missing_loc { fns := [], stmts := [] } true
      { loc := none, id := none, params := [], body := [] }
      { loc := none, payload := 0 } rfl rfl).1 _,
   (c9_amended_missing_loc { fns := [], stmts := [] } true
      { loc := none, id := none, params := [], body := [] }
      { loc := none, payload := 0 } rfl rfl).2.2.1⟩

/-- Claim C10: a function descriptor whose name is absent or falsy is
never matched by the function location matcher, so during the visitor
scans it is always skipped and can never cause a node to be stubbed —
even when the node's start and end lines agree with the descriptor's
declared location. -/
theorem c10_falsy_name (d : FnDesc) (h : nameTruthy d.name = false) :
    (∀ n, isSameFunction n d = false) ∧
    (∀ (n : FnNode) (hits : Option Nat) (rest : List (FnDesc × Option Nat)),
      fnDeclScan n ((d, hits) :: rest) = fnDeclScan n rest) ∧
    (∀ (n : FnNode) (hits : Option Nat) (rest : List (FnDesc × Option Nat)),
      fnExprScan n ((d, hits) :: rest) = fnExprScan n rest) := by
  have h1 : ∀ n, isSameFunction n d = false := by
    intro n
    cases hdn : d.name with
    | none => cases hl : n.loc <;> simp [isSameFunction, hl, hdn]
    | some nm =>
      have hnm : nm = "" := by
        rw [hdn] at h
        simpa [nameTruthy] using h
      subst hnm
      cases hl : n.loc <;> simp [isSameFunction, hl, hdn]
  refine ⟨h1, ?_, ?_⟩
  · intro n hits rest
    simp [fnDeclScan, h1 n]
  · intro n hits rest
    simp [fnExprScan, h1 n]

/-- Claim C10, witness: a nameless descriptor whose declared lines
agree exactly with a concrete anonymous node still fails the matcher. -/
theorem c10_witness :
    isSameFunction
      { loc := some { startLine := 2, startColumn := 0, endLine := 4, endColumn := 0 },
        id := none, params := [], body := [] }
      { name := none,
        loc := { startLine := 2, startColumn := 0, endLine := 4, endColumn := 0 } } = false :=
  (c10_falsy_name
    { name := none,
      loc := { startLine := 2, startColumn := 0, endLine := 4, endColumn := 0 } } rfl).1 _
